import Mathlib

/-!
Verification of the module-compilation and sandbox-configuration layer of
the wamr-rust-sdk (src/module.rs), as a shallow embedding in Lean 4.

The engine boundary (wasm_runtime_load, wasm_runtime_set_wasi_args,
wasm_runtime_set_wasi_ns_lookup_pool, wasm_runtime_set_wasi_addr_pool,
wasm_runtime_unload) is modelled as an oracle plus an explicit trace of
emitted calls.  Pointers handed across the boundary are modelled as
`Option (List String)`: `none` is a null pointer, `some xs` is a non-null
pointer to the storage of the list `xs`.
-/

namespace Wamr

/-- An OS-level failure code carried by a file-system error. -/
abbrev IOError := Nat

/-- Modelled from the spec: the error type of the layer (two kinds matter
here, `FileAccessError` alias `WasmFileFSError` carrying the OS failure, and
`CompilationError` carrying the diagnostic message).  The enum itself lives
outside src/. -/
inductive RuntimeError where
  | WasmFileFSError : IOError → RuntimeError
  | CompilationError : String → RuntimeError
deriving DecidableEq

/-- Modelled from the spec: the Sandbox Policy (`WasiCtx`, defined in
wasi_context.rs which is outside src/): five kinds of data in six ordered
lists, as consumed by the getters that `module.rs` calls. -/
structure WasiCtx where
  preopen_real_paths : List String
  preopen_mapped_paths : List String
  env_vars : List String
  arguments : List String
  allowed_dns : List String
  allowed_address : List String
deriving DecidableEq

def WasiCtx.get_preopen_real_paths (c : WasiCtx) : List String :=
  c.preopen_real_paths

def WasiCtx.get_preopen_mapped_paths (c : WasiCtx) : List String :=
  c.preopen_mapped_paths

def WasiCtx.get_env_vars (c : WasiCtx) : List String :=
  c.env_vars

def WasiCtx.get_arguments (c : WasiCtx) : List String :=
  c.arguments

def WasiCtx.get_allowed_dns (c : WasiCtx) : List String :=
  c.allowed_dns

def WasiCtx.get_allowed_address (c : WasiCtx) : List String :=
  c.allowed_address

/-- Modelled from the spec: `WasiCtx::default()` is the fully empty policy
(the attached Sandbox Policy defaults to fully empty). -/
def WasiCtx.default : WasiCtx :=
  ⟨[], [], [], [], [], []⟩

/-- Modelled from the spec: `helper::DEFAULT_ERROR_BUF_SIZE` (helper.rs is
outside src/), the fixed capacity of the caller-supplied error buffer.  The
spec fixes no number; any positive capacity yields the same behaviour.  The
value 128 is used here. -/
def DEFAULT_ERROR_BUF_SIZE : Nat := 128

/-- The NUL character filling a zero-initialized C error buffer. -/
def charNUL : Char := Char.ofNat 0

/-- The engine writes a NUL-terminated diagnostic into a caller buffer of
capacity `cap`, truncating to `cap - 1` characters; the rest of the buffer
keeps its zero initialization.  The result always has length `cap`. -/
def writeCStr (diag : List Char) (cap : Nat) : List Char :=
  let d := diag.take (cap - 1)
  d ++ List.replicate (cap - d.length) charNUL

/-- Modelled from the spec: `helper::error_buf_to_string` (helper.rs is
outside src/) converts the C error buffer to the engine-provided diagnostic
string: the characters up to the first NUL. -/
def error_buf_to_string (buf : List Char) : String :=
  String.mk (buf.takeWhile (fun c => c != charNUL))

/-- The engine boundary as an oracle: whether a buffer compiles (and to
which handle), and which diagnostic the engine writes on rejection. -/
structure Engine where
  loadResult : List Nat → Option Nat
  loadDiag : List Nat → List Char

/-- The Runtime capability token; `Module::from_buf` receives it but never
reads it (the parameter is named `_runtime` in the source). -/
structure Runtime where
  live : Bool

/-- The truncating `as u32` cast applied to `len()`. -/
def u32cast (n : Nat) : Nat := n % 2 ^ 32

/-- The truncating `as i32` cast applied to `len()`: reinterpret the low 32
bits as a signed value. -/
def i32cast (n : Nat) : Int :=
  if n % 2 ^ 32 < 2 ^ 31 then ((n % 2 ^ 32 : Nat) : Int)
  else ((n % 2 ^ 32 : Nat) : Int) - 2 ^ 32

/-- The payload of one `wasm_runtime_set_wasi_args` call. -/
structure WasiArgsPayload where
  real : Option (List String)
  realCount : Nat
  mapped : Option (List String)
  mappedCount : Nat
  env : Option (List String)
  envCount : Nat
  args : Option (List String)
  argc : Int
deriving DecidableEq

/-- One call across the engine boundary, as emitted by this layer. -/
inductive EngineCall where
  | setWasiArgs (handle : Nat) (payload : WasiArgsPayload)
  | setNsLookupPool (handle : Nat) (pool : Option (List String)) (count : Nat)
  | setAddrPool (handle : Nat) (pool : Option (List String)) (count : Nat)
  | unload (handle : Nat)
deriving DecidableEq

/-- The Compiled Module: opaque handle, retained byte buffer, attached
Sandbox Policy. -/
structure Module where
  module : Nat
  content : List Nat
  wasi_ctx : WasiCtx
deriving DecidableEq

def Module.get_inner_module (m : Module) : Nat := m.module

/-- `Module::from_buf`: copy the buffer, call `wasm_runtime_load`; on null
result inspect `error_buf.len()` (the length of the fixed-size array, which
is `DEFAULT_ERROR_BUF_SIZE`) and build a `CompilationError`; on success
build the module from the handle, the retained content and the default
policy. -/
def Module.from_buf (_runtime : Runtime) (eng : Engine) (buf : List Nat) :
    Except RuntimeError Module :=
  let content := buf
  match eng.loadResult content with
  | some module =>
      Except.ok { module := module, content := content, wasi_ctx := WasiCtx.default }
  | none =>
      let error_buf := writeCStr (eng.loadDiag content) DEFAULT_ERROR_BUF_SIZE
      match error_buf.length with
      | 0 => Except.error (RuntimeError.CompilationError ("load module failed"))
      | Nat.succ _ => Except.error (RuntimeError.CompilationError (error_buf_to_string error_buf))

/-- The result of `File::open`: a file whose `read_to_end` either yields the
full contents or an OS failure. -/
structure WasmFile where
  read_to_end : Except IOError (List Nat)

/-- The file system as seen by `Module::from_file`: `File::open` either
yields a file or an OS failure. -/
structure FileSystem where
  openFile : String → Except IOError WasmFile

/-- `Module::from_file`: open the file, read it to the end, then delegate to
`Module::from_buf`; each of the two fallible steps propagates its OS
failure as `RuntimeError::WasmFileFSError` via the question-mark operator. -/
def Module.from_file (runtime : Runtime) (eng : Engine) (fs : FileSystem)
    (wasm_file : String) : Except RuntimeError Module :=
  match fs.openFile wasm_file with
  | Except.error e => Except.error (RuntimeError.WasmFileFSError e)
  | Except.ok f =>
      match f.read_to_end with
      | Except.error e => Except.error (RuntimeError.WasmFileFSError e)
      | Except.ok binary => Module.from_buf runtime eng binary

/-- `Module::set_wasi_context`: store the policy in the module, then flatten
it and push it across the engine boundary against the inner handle.  Each of
the six lists becomes a pointer (null when the list is empty, otherwise a
pointer to the storage of the list) and a count (the length, cast `as u32`,
the argument count cast `as i32`).  The emitted boundary calls are returned
as a trace alongside the updated module. -/
def Module.set_wasi_context (m : Module) (wasi_ctx : WasiCtx) :
    Module × List EngineCall :=
  let m := { m with wasi_ctx := wasi_ctx }
  let real_paths :=
    if m.wasi_ctx.get_preopen_real_paths.isEmpty then none
    else some m.wasi_ctx.get_preopen_real_paths
  let mapped_paths :=
    if m.wasi_ctx.get_preopen_mapped_paths.isEmpty then none
    else some m.wasi_ctx.get_preopen_mapped_paths
  let env :=
    if m.wasi_ctx.get_env_vars.isEmpty then none
    else some m.wasi_ctx.get_env_vars
  let args :=
    if m.wasi_ctx.get_arguments.isEmpty then none
    else some m.wasi_ctx.get_arguments
  let argsCall := EngineCall.setWasiArgs m.get_inner_module
    { real := real_paths
      realCount := u32cast m.wasi_ctx.get_preopen_real_paths.length
      mapped := mapped_paths
      mappedCount := u32cast m.wasi_ctx.get_preopen_mapped_paths.length
      env := env
      envCount := u32cast m.wasi_ctx.get_env_vars.length
      args := args
      argc := i32cast m.wasi_ctx.get_arguments.length }
  let ns_lookup_pool :=
    if m.wasi_ctx.get_allowed_dns.isEmpty then none
    else some m.wasi_ctx.get_allowed_dns
  let nsCall := EngineCall.setNsLookupPool m.get_inner_module ns_lookup_pool
    (u32cast m.wasi_ctx.get_allowed_dns.length)
  let addr_pool :=
    if m.wasi_ctx.get_allowed_address.isEmpty then none
    else some m.wasi_ctx.get_allowed_address
  let addrCall := EngineCall.setAddrPool m.get_inner_module addr_pool
    (u32cast m.wasi_ctx.get_allowed_address.length)
  (m, [argsCall, nsCall, addrCall])

/-- `impl Drop for Module`: destruction calls `wasm_runtime_unload` on the
inner handle, once. -/
def Module.dropModule (m : Module) : List EngineCall :=
  [EngineCall.unload m.module]

/-- Apply a sequence of `set_wasi_context` calls to a module, collecting the
emitted engine-boundary trace. -/
def applyPolicies (m : Module) (ps : List WasiCtx) : Module × List EngineCall :=
  match ps with
  | [] => (m, [])
  | p :: rest =>
      let step := m.set_wasi_context p
      let next := applyPolicies step.1 rest
      (next.1, step.2 ++ next.2)

/-- The full engine-boundary trace of a module that receives a sequence of
`set_wasi_context` calls and is then destroyed. -/
def lifecycleTrace (m : Module) (ps : List WasiCtx) : List EngineCall :=
  (applyPolicies m ps).2 ++ (applyPolicies m ps).1.dropModule

/-- Whether an engine-boundary call is an unload. -/
def isUnload : EngineCall → Bool
  | EngineCall.unload _ => true
  | _ => false

/-- The engine-side sandbox configuration recorded for one handle: the last
payload received through each of the three configuration entry points. -/
structure EngineConfig where
  wasiArgs : Option WasiArgsPayload
  nsPool : Option (Option (List String) × Nat)
  addrPool : Option (Option (List String) × Nat)
deriving DecidableEq

def EngineConfig.init : EngineConfig :=
  ⟨none, none, none⟩

/-- How one engine-boundary call updates the configuration recorded for the
handle `h` (calls against other handles and unloads leave it unchanged). -/
def applyCall (h : Nat) (cfg : EngineConfig) : EngineCall → EngineConfig
  | EngineCall.setWasiArgs h' p =>
      if h' = h then { cfg with wasiArgs := some p } else cfg
  | EngineCall.setNsLookupPool h' pool c =>
      if h' = h then { cfg with nsPool := some (pool, c) } else cfg
  | EngineCall.setAddrPool h' pool c =>
      if h' = h then { cfg with addrPool := some (pool, c) } else cfg
  | EngineCall.unload _ => cfg

/-- The engine-side configuration for handle `h` after a trace of calls. -/
def runConfig (h : Nat) (cs : List EngineCall) : EngineConfig :=
  cs.foldl (applyCall h) EngineConfig.init

/-- Modelled from the spec: the Sandbox Policy builder (`WasiCtxBuilder`,
defined in wasi_context.rs which is outside src/), accumulating the six
lists of the policy. -/
structure WasiCtxBuilder where
  preopen_real_paths : List String
  preopen_mapped_paths : List String
  env_vars : List String
  arguments : List String
  allowed_dns : List String
  allowed_address : List String
deriving DecidableEq

def WasiCtxBuilder.new : WasiCtxBuilder :=
  ⟨[], [], [], [], [], []⟩

/-- Modelled from the spec: `add_preopen(real_path, alias_path?)` appends a
pair; the alias defaults to the real path when omitted; no uniqueness
constraint is enforced. -/
def WasiCtxBuilder.add_preopen (b : WasiCtxBuilder) (real_path : String)
    (alias_path : Option String) : WasiCtxBuilder :=
  { b with
    preopen_real_paths := b.preopen_real_paths ++ [real_path]
    preopen_mapped_paths := b.preopen_mapped_paths ++ [alias_path.getD real_path] }

/-- Modelled from the spec: `set_env_vars(list)` replaces the environment
list wholesale. -/
def WasiCtxBuilder.set_env_vars (b : WasiCtxBuilder) (l : List String) :
    WasiCtxBuilder :=
  { b with env_vars := l }

/-- Modelled from the spec: `set_arguments(list)` replaces the argument list
wholesale. -/
def WasiCtxBuilder.set_arguments (b : WasiCtxBuilder) (l : List String) :
    WasiCtxBuilder :=
  { b with arguments := l }

/-- Modelled from the spec: `set_allowed_dns(list)` replaces the DNS
allow-list wholesale. -/
def WasiCtxBuilder.set_allowed_dns (b : WasiCtxBuilder) (l : List String) :
    WasiCtxBuilder :=
  { b with allowed_dns := l }

/-- Modelled from the spec: `set_allowed_addresses(list)` replaces the
address allow-list wholesale. -/
def WasiCtxBuilder.set_allowed_addresses (b : WasiCtxBuilder) (l : List String) :
    WasiCtxBuilder :=
  { b with allowed_address := l }

/-- Modelled from the spec: `build()` finalizes the builder into an
immutable Sandbox Policy. -/
def WasiCtxBuilder.build (b : WasiCtxBuilder) : WasiCtx :=
  ⟨b.preopen_real_paths, b.preopen_mapped_paths, b.env_vars, b.arguments,
    b.allowed_dns, b.allowed_address⟩

/-- One builder call, for reasoning about arbitrary builder histories. -/
inductive BuilderOp where
  | addPreopen (real_path : String) (alias_path : Option String)
  | setEnvVars (l : List String)
  | setArguments (l : List String)
  | setAllowedDns (l : List String)
  | setAllowedAddresses (l : List String)
deriving DecidableEq

def applyBuilderOp (b : WasiCtxBuilder) : BuilderOp → WasiCtxBuilder
  | BuilderOp.addPreopen r a => b.add_preopen r a
  | BuilderOp.setEnvVars l => b.set_env_vars l
  | BuilderOp.setArguments l => b.set_arguments l
  | BuilderOp.setAllowedDns l => b.set_allowed_dns l
  | BuilderOp.setAllowedAddresses l => b.set_allowed_addresses l

/-- Run a builder history from a fresh builder. -/
def runBuilder (ops : List BuilderOp) : WasiCtxBuilder :=
  ops.foldl applyBuilderOp WasiCtxBuilder.new

/-- The preopen pairs contributed by a builder history, in order. -/
def preopensOf (ops : List BuilderOp) : List (String × Option String) :=
  ops.filterMap fun op =>
    match op with
    | BuilderOp.addPreopen r a => some (r, a)
    | _ => none

/-- Whether a compilation result is the file-access error kind. -/
def isFSError : Except RuntimeError Module → Bool
  | Except.error (RuntimeError.WasmFileFSError _) => true
  | _ => false

/-- Whether a compilation result is the compilation-error kind. -/
def isCompilationErr : Except RuntimeError Module → Bool
  | Except.error (RuntimeError.CompilationError _) => true
  | _ => false

/-- Whether opening or fully reading the file at `p` fails. -/
def readFails (fs : FileSystem) (p : String) : Bool :=
  match fs.openFile p with
  | Except.error _ => true
  | Except.ok f =>
      match f.read_to_end with
      | Except.error _ => true
      | Except.ok _ => false

/-- Concrete fixtures used to instantiate the universally quantified
theorems at specific inputs. -/
def rtC : Runtime := ⟨true⟩

def engAccept : Engine := ⟨fun _ => some 7, fun _ => []⟩

def engRejectSilent : Engine := ⟨fun _ => none, fun _ => []⟩

def fileC : WasmFile := ⟨Except.ok [0, 97, 115, 109]⟩

def fsOk : FileSystem := ⟨fun _ => Except.ok fileC⟩

def fsMissing : FileSystem := ⟨fun _ => Except.error 2⟩

def mC : Module := ⟨7, [0, 97, 115, 109], WasiCtx.default⟩

def ctxC : WasiCtx := ⟨[(".")], [(".")], [], [], [], []⟩

lemma writeCStr_length (d : List Char) (cap : Nat) (h : 0 < cap) :
    (writeCStr d cap).length = cap := by
  unfold writeCStr
  simp only [List.length_append, List.length_replicate, List.length_take]
  omega

lemma from_buf_some (rt : Runtime) (eng : Engine) (buf : List Nat) (hdl : Nat)
    (h : eng.loadResult buf = some hdl) :
    Module.from_buf rt eng buf =
      Except.ok { module := hdl, content := buf, wasi_ctx := WasiCtx.default } := by
  unfold Module.from_buf
  simp only [h]

lemma from_buf_none (rt : Runtime) (eng : Engine) (buf : List Nat)
    (h : eng.loadResult buf = none) :
    Module.from_buf rt eng buf =
      Except.error (RuntimeError.CompilationError
        (error_buf_to_string (writeCStr (eng.loadDiag buf) DEFAULT_ERROR_BUF_SIZE))) := by
  unfold Module.from_buf
  have hl : (writeCStr (eng.loadDiag buf) DEFAULT_ERROR_BUF_SIZE).length =
      DEFAULT_ERROR_BUF_SIZE := writeCStr_length _ _ (by norm_num [DEFAULT_ERROR_BUF_SIZE])
  simp only [h, hl]
  rfl

/-- C10: `set_wasi_context` modifies only the `wasi_ctx` field of the
module; the compiled handle (`module` field) and the byte buffer (`content`
field) are unchanged by the call, and the stored policy becomes the given
one. -/
theorem set_wasi_context_frame (m : Module) (p : WasiCtx) :
    (m.set_wasi_context p).1.module = m.module ∧
    (m.set_wasi_context p).1.content = m.content ∧
    (m.set_wasi_context p).1.wasi_ctx = p :=
  ⟨rfl, rfl, rfl⟩

/-- C7: whenever the file at `p` opens and reads to the end successfully
with contents `bytes`, `from_file` returns exactly what `from_buf` returns
on `bytes`. -/
theorem from_file_refines_from_buf (rt : Runtime) (eng : Engine)
    (fs : FileSystem) (p : String) (f : WasmFile) (bytes : List Nat)
    (hopen : fs.openFile p = Except.ok f)
    (hread : f.read_to_end = Except.ok bytes) :
    Module.from_file rt eng fs p = Module.from_buf rt eng bytes := by
  unfold Module.from_file
  simp only [hopen, hread]

/-- Witness for C7 at a concrete file system, engine and path. -/
theorem from_file_refines_from_buf_witness :
    Module.from_file rtC engAccept fsOk ("a.wasm") =
      Module.from_buf rtC engAccept [0, 97, 115, 109] :=
  from_file_refines_from_buf rtC engAccept fsOk ("a.wasm") fileC
    [0, 97, 115, 109] rfl rfl

/-- C4: compilation is atomic.  When the engine rejects the buffer, both
`from_buf` and `from_file` (after a successful read of that buffer) return
exactly a `CompilationError` carrying only a message; no `Module` value and
no retained handle or buffer is produced. -/
theorem from_buf_failure_atomic (rt : Runtime) (eng : Engine)
    (buf : List Nat) (fs : FileSystem) (p : String) (f : WasmFile)
    (hload : eng.loadResult buf = none)
    (hopen : fs.openFile p = Except.ok f)
    (hread : f.read_to_end = Except.ok buf) :
    (∃ msg, Module.from_buf rt eng buf =
      Except.error (RuntimeError.CompilationError msg)) ∧
    (∃ msg, Module.from_file rt eng fs p =
      Except.error (RuntimeError.CompilationError msg)) := by
  have hb := from_buf_none rt eng buf hload
  have hf := from_file_refines_from_buf rt eng fs p f buf hopen hread
  exact ⟨⟨_, hb⟩, ⟨_, hf.trans hb⟩⟩

/-- Witness for C4 at a concrete rejecting engine and file system. -/
theorem from_buf_failure_atomic_witness :
    (∃ msg, Module.from_buf rtC engRejectSilent [0, 97, 115, 109] =
      Except.error (RuntimeError.CompilationError msg)) ∧
    (∃ msg, Module.from_file rtC engRejectSilent fsOk ("a.wasm") =
      Except.error (RuntimeError.CompilationError msg)) :=
  from_buf_failure_atomic rtC engRejectSilent [0, 97, 115, 109] fsOk
    ("a.wasm") fileC rfl rfl rfl

/-- C8: on success, the returned module retains a copy of the input buffer
as its `content`, holds the handle the engine returned for that buffer, and
its attached policy is the fully empty default (all six lists empty). -/
theorem from_buf_success_owns_buffer_default_policy (rt : Runtime)
    (eng : Engine) (buf : List Nat) (m : Module)
    (h : Module.from_buf rt eng buf = Except.ok m) :
    m.content = buf ∧ eng.loadResult buf = some m.module ∧
    m.wasi_ctx = WasiCtx.default ∧
    m.wasi_ctx.preopen_real_paths = [] ∧
    m.wasi_ctx.preopen_mapped_paths = [] ∧
    m.wasi_ctx.env_vars = [] ∧
    m.wasi_ctx.arguments = [] ∧
    m.wasi_ctx.allowed_dns = [] ∧
    m.wasi_ctx.allowed_address = [] := by
  cases hl : eng.loadResult buf with
  | none =>
      rw [from_buf_none rt eng buf hl] at h
      exact absurd h (by simp)
  | some hdl =>
      rw [from_buf_some rt eng buf hdl hl] at h
      have hm : m = { module := hdl, content := buf, wasi_ctx := WasiCtx.default } :=
        (Except.ok.injEq _ _ ▸ h).symm
      subst hm
      exact ⟨rfl, rfl, rfl, rfl, rfl, rfl, rfl, rfl, rfl⟩

/-- Witness for C8 at a concrete accepting engine. -/
theorem from_buf_success_owns_buffer_default_policy_witness :
    mC.content = [0, 97, 115, 109] ∧
    engAccept.loadResult [0, 97, 115, 109] = some mC.module ∧
    mC.wasi_ctx = WasiCtx.default ∧
    mC.wasi_ctx.preopen_real_paths = [] ∧
    mC.wasi_ctx.preopen_mapped_paths = [] ∧
    mC.wasi_ctx.env_vars = [] ∧
    mC.wasi_ctx.arguments = [] ∧
    mC.wasi_ctx.allowed_dns = [] ∧
    mC.wasi_ctx.allowed_address = [] :=
  from_buf_success_owns_buffer_default_policy rtC engAccept
    [0, 97, 115, 109] mC (by rfl)

/-- C3: the two error kinds are mutually exclusive by operation.  When the
file cannot be opened or fully read, `from_file` returns the file-access
error kind and never a `CompilationError`; and `from_buf` never returns the
file-access error kind on any buffer. -/
theorem error_kinds_disjoint (rt : Runtime) (eng : Engine) (fs : FileSystem)
    (p : String) (buf : List Nat) (h : readFails fs p = true) :
    isFSError (Module.from_file rt eng fs p) = true ∧
    isCompilationErr (Module.from_file rt eng fs p) = false ∧
    isFSError (Module.from_buf rt eng buf) = false ∧
    (∀ e, fs.openFile p = Except.error e →
      Module.from_file rt eng fs p =
        Except.error (RuntimeError.WasmFileFSError e)) := by
  refine ⟨?_, ?_, ?_, ?_⟩
  · unfold readFails at h
    unfold Module.from_file
    cases hopen : fs.openFile p with
    | error e => simp [isFSError]
    | ok f =>
        rw [hopen] at h
        dsimp only
        cases hread : f.read_to_end with
        | error e => simp [isFSError]
        | ok bytes => dsimp only at h; rw [hread] at h; simp at h
  · unfold readFails at h
    unfold Module.from_file
    cases hopen : fs.openFile p with
    | error e => simp [isCompilationErr]
    | ok f =>
        rw [hopen] at h
        dsimp only
        cases hread : f.read_to_end with
        | error e => simp [isCompilationErr]
        | ok bytes => dsimp only at h; rw [hread] at h; simp at h
  · cases hl : eng.loadResult buf with
    | none => rw [from_buf_none rt eng buf hl]; simp [isFSError]
    | some hdl => rw [from_buf_some rt eng buf hdl hl]; simp [isFSError]
  · intro e he
    unfold Module.from_file
    rw [he]

/-- Witness for C3 at a concrete missing file and a concrete buffer. -/
theorem error_kinds_disjoint_witness :
    isFSError (Module.from_file rtC engAccept fsMissing ("no_such")) = true ∧
    isCompilationErr (Module.from_file rtC engAccept fsMissing ("no_such")) = false ∧
    isFSError (Module.from_buf rtC engAccept []) = false ∧
    Module.from_file rtC engAccept fsMissing ("no_such") =
      Except.error (RuntimeError.WasmFileFSError 2) := by
  have h := error_kinds_disjoint rtC engAccept fsMissing ("no_such") [] (by rfl)
  exact ⟨h.1, h.2.1, h.2.2.1, h.2.2.2 2 rfl⟩

/-- C2: the claim fails on the code.  The rejection branch matches on the
length of the fixed-size error array, which is the constant
`DEFAULT_ERROR_BUF_SIZE` and never 0, so the fallback branch is dead: when
the engine rejects a buffer and writes an empty diagnostic, `from_buf`
returns `CompilationError` with the empty message, not the documented
fallback string. -/
theorem from_buf_silent_rejection_message :
    Module.from_buf rtC engRejectSilent [] =
      Except.error (RuntimeError.CompilationError ("")) ∧
    Module.from_buf rtC engRejectSilent [] ≠
      Except.error (RuntimeError.CompilationError ("load module failed")) := by
  have hmsg : error_buf_to_string
      (writeCStr (engRejectSilent.loadDiag []) DEFAULT_ERROR_BUF_SIZE) = ("") := by
    decide
  constructor
  · rw [from_buf_none rtC engRejectSilent [] rfl, hmsg]
  · rw [from_buf_none rtC engRejectSilent [] rfl, hmsg]
    simp only [ne_eq, Except.error.injEq, RuntimeError.CompilationError.injEq]
    decide

/-- C1: the flattening pushed by `set_wasi_context`.  For each of the six
list-valued policy fields, an empty list is passed as a null pointer with
count 0 (the length of the empty list), and a non-empty list is passed as a
non-null pointer to the list storage with count equal to the list length
(the lengths being small enough for the `as u32` and `as i32` casts to be
the identity). -/
theorem set_wasi_context_null_empty_flattening (m : Module) (ctx : WasiCtx)
    (hr : ctx.preopen_real_paths.length < 2 ^ 32)
    (hm : ctx.preopen_mapped_paths.length < 2 ^ 32)
    (he : ctx.env_vars.length < 2 ^ 32)
    (ha : ctx.arguments.length < 2 ^ 31)
    (hd : ctx.allowed_dns.length < 2 ^ 32)
    (hp : ctx.allowed_address.length < 2 ^ 32) :
    (m.set_wasi_context ctx).2 =
      [EngineCall.setWasiArgs m.module
        { real := if ctx.preopen_real_paths = [] then none
            else some ctx.preopen_real_paths
          realCount := ctx.preopen_real_paths.length
          mapped := if ctx.preopen_mapped_paths = [] then none
            else some ctx.preopen_mapped_paths
          mappedCount := ctx.preopen_mapped_paths.length
          env := if ctx.env_vars = [] then none else some ctx.env_vars
          envCount := ctx.env_vars.length
          args := if ctx.arguments = [] then none else some ctx.arguments
          argc := (ctx.arguments.length : Int) }
      , EngineCall.setNsLookupPool m.module
          (if ctx.allowed_dns = [] then none else some ctx.allowed_dns)
          ctx.allowed_dns.length
      , EngineCall.setAddrPool m.module
          (if ctx.allowed_address = [] then none else some ctx.allowed_address)
          ctx.allowed_address.length] := by
  have ha32 : ctx.arguments.length % 2 ^ 32 = ctx.arguments.length :=
    Nat.mod_eq_of_lt (lt_trans ha (by norm_num))
  unfold Module.set_wasi_context
  simp only [WasiCtx.get_preopen_real_paths, WasiCtx.get_preopen_mapped_paths,
    WasiCtx.get_env_vars, WasiCtx.get_arguments, WasiCtx.get_allowed_dns,
    WasiCtx.get_allowed_address, Module.get_inner_module, u32cast, i32cast,
    Nat.mod_eq_of_lt hr, Nat.mod_eq_of_lt hm, Nat.mod_eq_of_lt he,
    Nat.mod_eq_of_lt hd, Nat.mod_eq_of_lt hp, ha32, if_pos ha,
    List.isEmpty_iff]

/-- Witness for C1 at a concrete policy with one preopen pair and all other
lists empty: the preopen pointers are non-null with count 1, every other
list is a null pointer with count 0. -/
theorem set_wasi_context_null_empty_flattening_witness :
    (mC.set_wasi_context ctxC).2 =
      [EngineCall.setWasiArgs 7
        { real := some [(".")], realCount := 1
          mapped := some [(".")], mappedCount := 1
          env := none, envCount := 0
          args := none, argc := 0 }
      , EngineCall.setNsLookupPool 7 none 0
      , EngineCall.setAddrPool 7 none 0] := by
  rw [set_wasi_context_null_empty_flattening mC ctxC (by decide)
    (by decide) (by decide) (by decide) (by decide) (by decide)]
  rfl

/-- C5: destruction releases the handle exactly once.  For every module and
every sequence of `set_wasi_context` calls followed by destruction, the
engine-boundary trace contains exactly one unload call, and it targets the
module handle. -/
theorem lifecycle_unloads_exactly_once (m : Module) (ps : List WasiCtx) :
    (lifecycleTrace m ps).filter isUnload = [EngineCall.unload m.module] := by
  have key : ∀ ps : List WasiCtx, ∀ m : Module,
      (applyPolicies m ps).2.filter isUnload = [] ∧
      (applyPolicies m ps).1.module = m.module := by
    intro ps
    induction ps with
    | nil => intro m; exact ⟨rfl, rfl⟩
    | cons p rest ih =>
        intro m
        have hstep : (m.set_wasi_context p).2.filter isUnload = [] := rfl
        have hmod : (m.set_wasi_context p).1.module = m.module := rfl
        refine ⟨?_, ?_⟩
        · simp only [applyPolicies, List.filter_append, hstep,
            (ih (m.set_wasi_context p).1).1, List.nil_append]
        · simp only [applyPolicies, (ih (m.set_wasi_context p).1).2, hmod]
  unfold lifecycleTrace Module.dropModule
  rw [List.filter_append, (key ps m).1, (key ps m).2]
  rfl

/-- C6: `set_wasi_context` replaces the stored policy and pushes the new
flattening in the same call.  After two calls with policies `p1` then `p2`,
the module stores `p2`, and the engine-side configuration for the handle
(the last payload received through each configuration entry point) is
exactly the configuration produced by attaching `p2` alone. -/
theorem set_wasi_context_twice_last_wins (m : Module) (p1 p2 : WasiCtx) :
    ((m.set_wasi_context p1).1.set_wasi_context p2).1.wasi_ctx = p2 ∧
    runConfig m.module
        ((m.set_wasi_context p1).2 ++
          ((m.set_wasi_context p1).1.set_wasi_context p2).2) =
      runConfig m.module (m.set_wasi_context p2).2 := by
  constructor
  · rfl
  · simp [runConfig, applyCall, Module.set_wasi_context,
      Module.get_inner_module]

lemma runBuilder_preopens (ops : List BuilderOp) :
    ∀ b : WasiCtxBuilder,
      (ops.foldl applyBuilderOp b).preopen_real_paths =
        b.preopen_real_paths ++ (preopensOf ops).map Prod.fst ∧
      (ops.foldl applyBuilderOp b).preopen_mapped_paths =
        b.preopen_mapped_paths ++
          (preopensOf ops).map (fun ra => ra.2.getD ra.1) := by
  induction ops with
  | nil => intro b; simp [preopensOf]
  | cons op rest ih =>
      intro b
      cases op with
      | addPreopen r a =>
          have h := ih (applyBuilderOp b (BuilderOp.addPreopen r a))
          constructor
          · rw [List.foldl_cons, h.1]
            simp [applyBuilderOp, WasiCtxBuilder.add_preopen, preopensOf,
              List.filterMap_cons]
          · rw [List.foldl_cons, h.2]
            simp [applyBuilderOp, WasiCtxBuilder.add_preopen, preopensOf,
              List.filterMap_cons]
      | setEnvVars l =>
          have h := ih (applyBuilderOp b (BuilderOp.setEnvVars l))
          simpa [preopensOf, List.filterMap_cons, applyBuilderOp,
            WasiCtxBuilder.set_env_vars] using h
      | setArguments l =>
          have h := ih (applyBuilderOp b (BuilderOp.setArguments l))
          simpa [preopensOf, List.filterMap_cons, applyBuilderOp,
            WasiCtxBuilder.set_arguments] using h
      | setAllowedDns l =>
          have h := ih (applyBuilderOp b (BuilderOp.setAllowedDns l))
          simpa [preopensOf, List.filterMap_cons, applyBuilderOp,
            WasiCtxBuilder.set_allowed_dns] using h
      | setAllowedAddresses l =>
          have h := ih (applyBuilderOp b (BuilderOp.setAllowedAddresses l))
          simpa [preopensOf, List.filterMap_cons, applyBuilderOp,
            WasiCtxBuilder.set_allowed_addresses] using h

/-- C9: in every policy produced by the builder, the preopen real-path list
and the preopen alias-path list have equal length, and at every position
whose `add_preopen` call omitted the alias, the alias equals the real
path. -/
theorem builder_preopen_pairing (ops : List BuilderOp) :
    (runBuilder ops).build.preopen_real_paths.length =
      (runBuilder ops).build.preopen_mapped_paths.length ∧
    ∀ i : Nat, ∀ r : String, (preopensOf ops).get? i = some (r, none) →
      (runBuilder ops).build.preopen_mapped_paths.get? i = some r ∧
      (runBuilder ops).build.preopen_real_paths.get? i = some r := by
  have h := runBuilder_preopens ops WasiCtxBuilder.new
  have hreal : (runBuilder ops).build.preopen_real_paths =
      (preopensOf ops).map Prod.fst := by
    simpa [runBuilder, WasiCtxBuilder.build, WasiCtxBuilder.new] using h.1
  have hmapped : (runBuilder ops).build.preopen_mapped_paths =
      (preopensOf ops).map (fun ra => ra.2.getD ra.1) := by
    simpa [runBuilder, WasiCtxBuilder.build, WasiCtxBuilder.new] using h.2
  constructor
  · rw [hreal, hmapped]
    simp
  · intro i r hi
    rw [hreal, hmapped]
    rw [List.get?_map, List.get?_map, hi]
    exact ⟨rfl, rfl⟩

/-- Witness for C9: one preopen of the real path with the alias omitted
yields real-count 1 and alias-count 1 with the alias equal to the real
path. -/
theorem builder_preopen_pairing_witness :
    (runBuilder [BuilderOp.addPreopen (".") none]).build.preopen_real_paths.length =
      (runBuilder [BuilderOp.addPreopen (".") none]).build.preopen_mapped_paths.length ∧
    (runBuilder [BuilderOp.addPreopen (".") none]).build.preopen_real_paths.length = 1 ∧
    (runBuilder [BuilderOp.addPreopen (".") none]).build.preopen_mapped_paths.get? 0 =
      some (".") ∧
    (runBuilder [BuilderOp.addPreopen (".") none]).build.preopen_real_paths.get? 0 =
      some (".") := by
  have h := builder_preopen_pairing [BuilderOp.addPreopen (".") none]
  have h2 := h.2 0 (".") (by decide)
  exact ⟨h.1, by decide, h2.1, h2.2⟩

end Wamr
